import Mathlib

/-!
Verification of the client-side check workflow and result ledger of the
Gemini Brand Mention Checker (`src/app/page.tsx`).

The embedding models:
* the JavaScript value space relevant to truthiness coercion (`JSVal`),
* the `Result` record interface and its construction (`mkItem`),
* the `runCheck` handler as a pure transition on the component state
  (`AppState`), parameterised by the outcome of the `fetch` call
  (`FetchOutcome`),
* the CSV exporter (`escapeCSV`, `toCSV`) of `downloadCSV`,
* and, on the specification side, a line/field CSV parser used to state
  the round-trip property of the export.
-/

namespace GeminiBrand

/-- Model of a JavaScript value as far as boolean truthiness coercion is
concerned: `undefined`, `null`, booleans, integer numbers, strings, and a
single constructor standing for any object/array (always truthy). An absent
object field reads as `undefined`. -/
inductive JSVal where
  | undef
  | jsNull
  | jsBool (b : Bool)
  | jsNum (n : Int)
  | jsStr (s : String)
  | jsObj
  deriving DecidableEq

/-- Models JavaScript `Boolean(v)`: `undefined`, `null`, `false`, `0` and
the empty string are falsy; everything else in the modelled value space is
truthy. -/
def truthy : JSVal → Bool
  | .undef => false
  | .jsNull => false
  | .jsBool b => b
  | .jsNum n => decide (n ≠ 0)
  | .jsStr s => decide (s ≠ "")
  | .jsObj => true

/-- The `Result` interface of `page.tsx`: `prompt`, `mentioned`,
`position : number | null`, and an optional `error` string
(`none` models an absent / `undefined` field). -/
structure Result where
  prompt : String
  mentioned : Bool
  position : Option Int
  error : Option String
  deriving DecidableEq

/-- The untrusted parsed response body `data`, typed in the source as
`Partial<Result> & { error?: string }`. `mentioned` is an arbitrary
JavaScript value; `position` is `none` when the field is absent or
`undefined`, `some none` when it is JSON `null`, `some (some n)` when it is
a number; `error` is `none` when absent or `undefined`. -/
structure RawData where
  mentioned : JSVal
  position : Option (Option Int)
  error : Option String
  deriving DecidableEq

/-- Models the nullish-coalescing expression `data.position ?? null`:
an absent/`undefined` field and a `null` field both give `null`. -/
def coalescePos : Option (Option Int) → Option Int
  | none => none
  | some v => v

/-- Models the construction of `item` in `runCheck` (lines 46-51):
`{ prompt, mentioned: Boolean(data.mentioned), position: data.position ?? null,
error: data.error }`. The prompt is the original request's prompt. -/
def mkItem (prompt : String) (data : RawData) : Result :=
  { prompt := prompt
    mentioned := truthy data.mentioned
    position := coalescePos data.position
    error := data.error }

/-- The React component state touched by `runCheck`: the two input fields,
the results ledger (newest first), the top-level error banner text, and the
`loading` busy flag. -/
structure AppState where
  prompt : String
  brand : String
  results : List Result
  error : String
  loading : Bool
  deriving DecidableEq

/-- Outcome of `res.json()`: either the promise rejects (parse failure,
carrying the thrown error's optional `message`), or it resolves to a parsed
body. -/
inductive BodyOutcome where
  | parseFailure (msg : Option String)
  | parsed (data : RawData)
  deriving DecidableEq

/-- Outcome of the `fetch` call: either the promise rejects at the
transport level (carrying the thrown error's optional `message`, `none`
when the failure has no message), or a response arrives with `res.ok`,
`res.status`, and a body parse outcome. -/
inductive FetchOutcome where
  | reject (msg : Option String)
  | response (ok : Bool) (status : Nat) (body : BodyOutcome)
  deriving DecidableEq

/-- The invalid-input message of `runCheck` (line 23). -/
def invalidInputMsg : String := "Please enter both a prompt and a brand name."

/-- The connection-failure default message of the catch block (line 58). -/
def connectionFailureMsg : String :=
  "Unable to connect to backend. Make sure it's running on port 3001."

/-- The synthesized message for a non-success HTTP status (line 43). -/
def backendStatusMsg (status : Nat) : String :=
  "Backend returned status " ++ toString status

/-- Models JavaScript `String.prototype.trim`: drop leading and trailing
whitespace. -/
def jsTrim (s : String) : String :=
  String.mk (((s.data.dropWhile Char.isWhitespace).reverse.dropWhile
    Char.isWhitespace).reverse)

/-- Models lines 29-59 of `runCheck`, the `try`/`catch` body, as a function
of the state at entry and the fetch outcome. The `catch` block handles both
a rejected `fetch` and a rejected `res.json()`, setting the error banner to
the thrown error's message or the connection-failure default (`??`); it
appends nothing to the ledger. On a parsed body: a non-`ok` status first
sets the banner to `data.error ?? backendStatusMsg status`; then the item
is built and prepended; finally `if (data.error) setError(data.error)`,
where a present but empty `error` string is falsy. -/
def tryBlock (s : AppState) (net : FetchOutcome) : AppState :=
  match net with
  | .reject msg => { s with error := msg.getD connectionFailureMsg }
  | .response _ _ (.parseFailure msg) => { s with error := msg.getD connectionFailureMsg }
  | .response ok status (.parsed data) =>
    let s1 := if ok then s else { s with error := data.error.getD (backendStatusMsg status) }
    let item := mkItem s1.prompt data
    let s2 := { s1 with results := item :: s1.results }
    match data.error with
    | some e => if e = "" then s2 else { s2 with error := e }
    | none => s2

/-- Models `setLoading(true)` (line 27), the state in force when the
network call is issued. -/
def startState (s : AppState) : AppState := { s with loading := true }

/-- Models the `runCheck` handler (lines 19-63) as a pure transition:
clear the error banner; if either trimmed input is empty, set the
invalid-input message and return (before `setLoading(true)`); otherwise set
the busy flag, run the `try`/`catch` body against the fetch outcome, and
unconditionally (`finally`) clear the busy flag. -/
def runCheck (s : AppState) (net : FetchOutcome) : AppState :=
  let s0 := { s with error := "" }
  if jsTrim s0.prompt = "" ∨ jsTrim s0.brand = "" then
    { s0 with error := invalidInputMsg }
  else
    let s2 := tryBlock (startState s0) net
    { s2 with loading := false }

/-- Model of the value union accepted by `escapeCSV`
(`string | number | boolean | null`, plus `undefined` which the guard also
tests for). -/
inductive CSVValue where
  | str (s : String)
  | num (n : Int)
  | boolean (b : Bool)
  | jsNull
  | undef
  deriving DecidableEq

/-- Models JavaScript `String(value)` on the non-null branch of
`escapeCSV`: strings pass through, numbers print in decimal, booleans
print as `true`/`false`. -/
def jsToString : CSVValue → String
  | .str s => s
  | .num n => toString n
  | .boolean b => if b then "true" else "false"
  | .jsNull => "null"
  | .undef => "undefined"

/-- Character-level model of the global regex replace
`str.replace(/"/g, s)` with replacement `""`: every double-quote character
is expanded to two, every other character is kept. -/
def escAllChars : List Char → List Char
  | [] => []
  | c :: rest => (if c = '"' then ['"', '"'] else [c]) ++ escAllChars rest

/-- Models `str.replace(/"/g, ...)` of `escapeCSV` (line 68) on strings. -/
def escapeQuotes (s : String) : String := String.mk (escAllChars s.data)

/-- Models `escapeCSV` (lines 65-70): `null`/`undefined` return the empty
string; any other value is stringified, its quotes doubled, and the result
wrapped in double quotes. -/
def escapeCSV (value : CSVValue) : String :=
  if value = .jsNull ∨ value = .undef then ""
  else "\"" ++ escapeQuotes (jsToString value) ++ "\""

/-- View of a record's `position` as the value handed to `escapeCSV`
(`r.position` is a number or `null`). -/
def csvOfPos : Option Int → CSVValue
  | some n => .num n
  | none => .jsNull

/-- Models one mapped row of `downloadCSV` (lines 74-81):
`escapeCSV(r.prompt) + "," + escapeCSV(r.mentioned) + "," + escapeCSV(r.position)`. -/
def rowOf (r : Result) : String :=
  escapeCSV (.str r.prompt) ++ "," ++ escapeCSV (.boolean r.mentioned) ++ ","
    ++ escapeCSV (csvOfPos r.position)

/-- Models the header construction of `downloadCSV` (line 73):
`["prompt", "mentioned", "position"].join(",") + "\n"`. -/
def csvHeader : String :=
  String.intercalate "," ["prompt", "mentioned", "position"] ++ "\n"

/-- Models JavaScript `Array.prototype.join("\n")` over the row strings. -/
def joinRows : List String → String
  | [] => ""
  | [r] => r
  | r :: rest => r ++ "\n" ++ joinRows rest

/-- The full text handed to the `Blob` in `downloadCSV`: `header + rows`. -/
def toCSV (results : List Result) : String :=
  csvHeader ++ joinRows (results.map rowOf)

/-- Splits a character sequence at every newline character; the
specification-side notion of the lines of the exported text. -/
def splitLinesCh : List Char → List (List Char)
  | [] => [[]]
  | c :: rest =>
    if c = '\n' then [] :: splitLinesCh rest
    else
      match splitLinesCh rest with
      | [] => [[c]]
      | l :: ls => (c :: l) :: ls

/-- Specification-side CSV field scanner for one line, respecting quoted
fields and doubled-quote escapes: outside quotes a comma ends the field and
a quote opens a quoted section; inside quotes a doubled quote contributes a
literal quote and a single quote closes the section. -/
def csvFields : List Char → Bool → List Char → List String
  | [], _, cur => [String.mk cur]
  | '"' :: '"' :: rest, true, cur => csvFields rest true (cur ++ ['"'])
  | '"' :: rest, true, cur => csvFields rest false cur
  | c :: rest, true, cur => csvFields rest true (cur ++ [c])
  | ',' :: rest, false, cur => String.mk cur :: csvFields rest false []
  | '"' :: rest, false, cur => csvFields rest true cur
  | c :: rest, false, cur => csvFields rest false (cur ++ [c])

/-- Parses one CSV line into its fields. -/
def parseLine (cs : List Char) : List String := csvFields cs false []

/-- Parses a CSV text: split into lines, then each line into fields. -/
def parseCSVText (s : String) : List (List String) :=
  (splitLinesCh s.data).map parseLine

/-- The field text a record's position should read back as: its decimal
rendering, or the empty string for `null`. -/
def posField : Option Int → String
  | some n => toString n
  | none => ""

/-- The characters that can occur in the decimal rendering of an integer. -/
def decimalChars : List Char := ['-', '0', '1', '2', '3', '4', '5', '6', '7', '8', '9']

/-- On the parsed-body path, `runCheck` prepends exactly the normalised
item to the ledger, whatever the status and body contents. -/
theorem runCheck_parsed_results (s : AppState) (ok : Bool) (status : Nat)
    (data : RawData) (h : ¬(jsTrim s.prompt = "" ∨ jsTrim s.brand = "")) :
    (runCheck s (.response ok status (.parsed data))).results
      = mkItem s.prompt data :: s.results := by
  simp only [runCheck, startState]
  rw [if_neg (by simpa using h)]
  simp only [tryBlock]
  rcases ok with - | -
  · simp only [Bool.false_eq_true, if_false]
    rcases data.error with - | e
    · rfl
    · by_cases he : e = "" <;> simp [he]
  · simp only [if_true]
    rcases data.error with - | e
    · rfl
    · by_cases he : e = "" <;> simp [he]

/-- On the parsed-body path with a non-success status, the banner ends up
as `data.error ?? backendStatusMsg status`. -/
theorem runCheck_notok_error (s : AppState) (status : Nat)
    (data : RawData) (h : ¬(jsTrim s.prompt = "" ∨ jsTrim s.brand = "")) :
    (runCheck s (.response false status (.parsed data))).error
      = data.error.getD (backendStatusMsg status) := by
  simp only [runCheck, startState]
  rw [if_neg (by simpa using h)]
  simp only [tryBlock, Bool.false_eq_true, if_false]
  rcases data.error with - | e
  · rfl
  · by_cases he : e = "" <;> simp [he, Option.getD]

/-- Claim C5 (confirmed): when either input trims to empty, `runCheck`
sets the invalid-input message, leaves the ledger unchanged, does not
transition the busy flag, and its outcome does not depend on the network
at all (no network call is attempted). -/
theorem C5_invalid_input (s : AppState) (net : FetchOutcome)
    (h : jsTrim s.prompt = "" ∨ jsTrim s.brand = "") :
    (runCheck s net).error = invalidInputMsg ∧
    (runCheck s net).results = s.results ∧
    (runCheck s net).loading = s.loading ∧
    ∀ net2, runCheck s net2 = runCheck s net := by
  have hs : ∀ n : FetchOutcome, runCheck s n = { s with error := invalidInputMsg } := by
    intro n
    simp only [runCheck]
    rw [if_pos (by simpa using h)]
  refine ⟨?_, ?_, ?_, ?_⟩ <;> simp [hs]

/-- Witness for C5 at a concrete state with an all-whitespace prompt. -/
theorem C5_invalid_input_witness :
    (runCheck ⟨"  ", "Nike", [], "old", false⟩ (.reject none)).error = invalidInputMsg ∧
    (runCheck ⟨"  ", "Nike", [], "old", false⟩ (.reject none)).results = [] ∧
    (runCheck ⟨"  ", "Nike", [], "old", false⟩ (.reject none)).loading = false ∧
    ∀ net2, runCheck ⟨"  ", "Nike", [], "old", false⟩ net2
      = runCheck ⟨"  ", "Nike", [], "old", false⟩ (.reject none) :=
  C5_invalid_input ⟨"  ", "Nike", [], "old", false⟩ (.reject none) (Or.inl (by decide))

/-- Claim C8 (confirmed): past validation, the busy flag is `true` in the
state the network call is issued from, and `false` in the final state on
every path (success, handled HTTP failure, thrown exception), because the
`finally` reset is unconditional. -/
theorem C8_busy_flag (s : AppState) (net : FetchOutcome)
    (h : ¬(jsTrim s.prompt = "" ∨ jsTrim s.brand = "")) :
    (startState { s with error := "" }).loading = true ∧
    (runCheck s net).loading = false := by
  refine ⟨rfl, ?_⟩
  simp only [runCheck]
  rw [if_neg (by simpa using h)]

/-- Witness for C8 at a concrete state and a transport failure. -/
theorem C8_busy_flag_witness :
    (startState (⟨"p", "b", [], "", false⟩ : AppState)).loading = true ∧
    (runCheck ⟨"p", "b", [], "", false⟩ (.reject (some "boom"))).loading = false := by
  have h := C8_busy_flag ⟨"p", "b", [], "", false⟩ (.reject (some "boom")) (by decide)
  exact ⟨h.1, h.2⟩

/-- Claim C1 counterexample: with valid inputs and a transport failure
(fetch rejects with no message), the code appends nothing to the ledger —
the results list stays empty, so no ResultRecord with the error text exists
at index 0; only the banner is set to the connection-failure default. -/
theorem C1_counterexample :
    (runCheck ⟨"p", "b", [], "", false⟩ (.reject none)).results = [] ∧
    (runCheck ⟨"p", "b", [], "", false⟩ (.reject none)).error = connectionFailureMsg := by
  decide

/-- Claim C1 (corrected): after a transport-level failure the ledger is
unchanged — no ResultRecord is appended — while the top-level error is set
to the failure's own message or, absent one, the connection-failure
default, and the busy flag is cleared. -/
theorem C1_transport_failure (s : AppState) (msg : Option String)
    (h : ¬(jsTrim s.prompt = "" ∨ jsTrim s.brand = "")) :
    (runCheck s (.reject msg)).results = s.results ∧
    (runCheck s (.reject msg)).error = msg.getD connectionFailureMsg ∧
    (runCheck s (.reject msg)).loading = false := by
  simp only [runCheck]
  rw [if_neg (by simpa using h)]
  simp [tryBlock, startState]

/-- Witness for C1 (corrected) at a concrete state, once with a message
and once without. -/
theorem C1_transport_failure_witness :
    (runCheck ⟨"p", "b", [], "", false⟩ (.reject (some "boom"))).results = [] ∧
    (runCheck ⟨"p", "b", [], "", false⟩ (.reject (some "boom"))).error = "boom" ∧
    (runCheck ⟨"p", "b", [], "", false⟩ (.reject (some "boom"))).loading = false :=
  C1_transport_failure ⟨"p", "b", [], "", false⟩ (some "boom") (by decide)

/-- Claim C10 (confirmed): a body that fails to parse as JSON — under any
HTTP status, success included — lands in the same catch path as a transport
failure: the final state is identical to the transport-failure state for
the same thrown message; nothing is appended, the banner carries the parse
error's message or the connection-failure default, and the flag is idle. -/
theorem C10_parse_failure (s : AppState) (ok : Bool) (status : Nat)
    (msg : Option String)
    (h : ¬(jsTrim s.prompt = "" ∨ jsTrim s.brand = "")) :
    runCheck s (.response ok status (.parseFailure msg)) = runCheck s (.reject msg) ∧
    (runCheck s (.response ok status (.parseFailure msg))).results = s.results ∧
    (runCheck s (.response ok status (.parseFailure msg))).error
      = msg.getD connectionFailureMsg ∧
    (runCheck s (.response ok status (.parseFailure msg))).loading = false := by
  simp only [runCheck]
  rw [if_neg (by simpa using h), if_neg (by simpa using h)]
  simp [tryBlock, startState]

/-- Witness for C10 at a concrete state: a 200 response whose body is not
valid JSON. -/
theorem C10_parse_failure_witness :
    runCheck ⟨"p", "b", [], "", false⟩ (.response true 200 (.parseFailure none))
      = runCheck ⟨"p", "b", [], "", false⟩ (.reject none) ∧
    (runCheck ⟨"p", "b", [], "", false⟩ (.response true 200 (.parseFailure none))).results = [] ∧
    (runCheck ⟨"p", "b", [], "", false⟩ (.response true 200 (.parseFailure none))).error
      = connectionFailureMsg ∧
    (runCheck ⟨"p", "b", [], "", false⟩ (.response true 200 (.parseFailure none))).loading
      = false :=
  C10_parse_failure ⟨"p", "b", [], "", false⟩ true 200 none (by decide)

/-- Claim C2 counterexample: a 500 response whose body has no `error`
field still appends a record, but that record's `error` field is absent
(`none`), not set; the banner falls back to the synthesized status text. -/
theorem C2_counterexample :
    (runCheck ⟨"p", "b", [], "", false⟩
        (.response false 500 (.parsed ⟨.undef, none, none⟩))).results
      = [{ prompt := "p", mentioned := false, position := none, error := none }] ∧
    (runCheck ⟨"p", "b", [], "", false⟩
        (.response false 500 (.parsed ⟨.undef, none, none⟩))).error
      = "Backend returned status 500" := by
  decide

/-- Claim C2 (corrected): on a non-success status with a parsed JSON body,
a record is still constructed and prepended, with `mentioned` the
truthiness coercion of the body's field and `position` from the body or
null; the record's `error` equals the body's `error` when present and is
absent otherwise (it is not always set); the surfaced top-level error is
the body's `error` if present, else `backendStatusMsg status`. -/
theorem C2_http_failure (s : AppState) (status : Nat) (data : RawData)
    (h : ¬(jsTrim s.prompt = "" ∨ jsTrim s.brand = "")) :
    (runCheck s (.response false status (.parsed data))).results
      = mkItem s.prompt data :: s.results ∧
    (mkItem s.prompt data).mentioned = truthy data.mentioned ∧
    (mkItem s.prompt data).position = coalescePos data.position ∧
    (mkItem s.prompt data).error = data.error ∧
    (runCheck s (.response false status (.parsed data))).error
      = data.error.getD (backendStatusMsg status) := by
  exact ⟨runCheck_parsed_results s false status data h, rfl, rfl, rfl,
    runCheck_notok_error s status data h⟩

/-- Witness for C2 (corrected): the spec's scenario — status 500, body
`{error: "rate limited"}`. -/
theorem C2_http_failure_witness :
    (runCheck ⟨"p", "b", [], "", false⟩
        (.response false 500 (.parsed ⟨.undef, none, some "rate limited"⟩))).results
      = mkItem "p" ⟨.undef, none, some "rate limited"⟩ :: [] ∧
    (mkItem "p" ⟨.undef, none, some "rate limited"⟩).mentioned
      = truthy (RawData.mentioned ⟨.undef, none, some "rate limited"⟩) ∧
    (mkItem "p" ⟨.undef, none, some "rate limited"⟩).position
      = coalescePos (RawData.position ⟨.undef, none, some "rate limited"⟩) ∧
    (mkItem "p" ⟨.undef, none, some "rate limited"⟩).error
      = RawData.error ⟨.undef, none, some "rate limited"⟩ ∧
    (runCheck ⟨"p", "b", [], "", false⟩
        (.response false 500 (.parsed ⟨.undef, none, some "rate limited"⟩))).error
      = (RawData.error ⟨.undef, none, some "rate limited"⟩).getD (backendStatusMsg 500) :=
  C2_http_failure ⟨"p", "b", [], "", false⟩ 500 ⟨.undef, none, some "rate limited"⟩ (by decide)

/-- Claim C4 (confirmed): the normaliser keeps the original request's
prompt, coerces `mentioned` by JavaScript truthiness (with the listed falsy
values giving `false` and everything else `true`), takes `position` from
the body when present (null staying null) and defaults it to null when
absent or undefined, and copies `error` verbatim (absent stays absent). -/
theorem C4_normaliser (p : String) (data : RawData) :
    (mkItem p data).prompt = p ∧
    (mkItem p data).mentioned = truthy data.mentioned ∧
    truthy .undef = false ∧
    truthy .jsNull = false ∧
    truthy (.jsBool false) = false ∧
    truthy (.jsNum 0) = false ∧
    truthy (.jsStr "") = false ∧
    (∀ n : Int, n ≠ 0 → truthy (.jsNum n) = true) ∧
    (∀ str : String, str ≠ "" → truthy (.jsStr str) = true) ∧
    truthy (.jsBool true) = true ∧
    truthy .jsObj = true ∧
    (∀ v : Option Int, data.position = some v → (mkItem p data).position = v) ∧
    (data.position = none → (mkItem p data).position = none) ∧
    (mkItem p data).error = data.error := by
  refine ⟨rfl, rfl, rfl, rfl, rfl, by decide, by decide, ?_, ?_, rfl, rfl, ?_, ?_, rfl⟩
  · intro n hn; simpa [truthy] using hn
  · intro str hs; simpa [truthy] using hs
  · intro v hv; simp [mkItem, coalescePos, hv]
  · intro hv; simp [mkItem, coalescePos, hv]

/-- Witness for C4 at a concrete request and body: a truthy non-boolean
`mentioned` (`1`), a present position `3`, and no error field. -/
theorem C4_normaliser_witness :
    truthy (.jsNum 1) = true ∧
    truthy (.jsStr "yes") = true ∧
    (mkItem "p" ⟨.jsNum 1, some (some 3), none⟩).position = some 3 ∧
    (mkItem "p" ⟨.jsNum 1, some (some 3), none⟩).error = none := by
  obtain ⟨-, -, -, -, -, -, -, hnum, hstr, -, -, hpos, -, herr⟩ :=
    C4_normaliser "p" ⟨.jsNum 1, some (some 3), none⟩
  exact ⟨hnum 1 (by decide), hstr "yes" (by decide), hpos (some 3) rfl, herr⟩

/-- Claim C6 (confirmed): whenever a completed check appends a record, the
new record sits at index 0 and every prior record reappears unchanged at
its old index shifted by one. -/
theorem C6_prepend_frame (s : AppState) (ok : Bool) (status : Nat)
    (data : RawData) (h : ¬(jsTrim s.prompt = "" ∨ jsTrim s.brand = "")) :
    (runCheck s (.response ok status (.parsed data))).results.get? 0
      = some (mkItem s.prompt data) ∧
    ∀ i : Nat, (runCheck s (.response ok status (.parsed data))).results.get? (i + 1)
      = s.results.get? i := by
  rw [runCheck_parsed_results s ok status data h]
  exact ⟨rfl, fun i => rfl⟩

/-- Witness for C6: the spec's success scenario, with one older record
already in the ledger, checked at indices 0 and 1. -/
theorem C6_prepend_frame_witness :
    (runCheck ⟨"Best running shoes?", "Nike", [⟨"old", false, none, none⟩], "", false⟩
        (.response true 200 (.parsed ⟨.jsBool true, some (some 3), none⟩))).results.get? 0
      = some (mkItem "Best running shoes?" ⟨.jsBool true, some (some 3), none⟩) ∧
    ∀ i : Nat,
      (runCheck ⟨"Best running shoes?", "Nike", [⟨"old", false, none, none⟩], "", false⟩
          (.response true 200 (.parsed ⟨.jsBool true, some (some 3), none⟩))).results.get? (i + 1)
        = [(⟨"old", false, none, none⟩ : Result)].get? i :=
  C6_prepend_frame ⟨"Best running shoes?", "Nike", [⟨"old", false, none, none⟩], "", false⟩
    true 200 ⟨.jsBool true, some (some 3), none⟩ (by decide)

theorem escapeCSV_str (s : String) :
    escapeCSV (.str s) = "\"" ++ escapeQuotes s ++ "\"" := rfl

theorem escapeCSV_boolean (b : Bool) :
    escapeCSV (.boolean b) = "\"" ++ escapeQuotes (jsToString (.boolean b)) ++ "\"" := rfl

theorem escapeCSV_num (n : Int) :
    escapeCSV (.num n) = "\"" ++ escapeQuotes (toString n) ++ "\"" := rfl

theorem escapeCSV_jsNull : escapeCSV .jsNull = "" := rfl

theorem digitChar_mem_decimal (d : Nat) (h : d < 10) : Nat.digitChar d ∈ decimalChars := by
  interval_cases d <;> decide

theorem toDigitsCore_mem_decimal (f : Nat) : ∀ (n : Nat) (ds : List Char),
    (∀ c ∈ ds, c ∈ decimalChars) → ∀ c ∈ Nat.toDigitsCore 10 f n ds, c ∈ decimalChars := by
  induction f with
  | zero =>
    intro n ds hds c hc
    simp only [Nat.toDigitsCore] at hc
    exact hds c hc
  | succ f ih =>
    intro n ds hds c hc
    have hd : Nat.digitChar (n % 10) ∈ decimalChars :=
      digitChar_mem_decimal _ (Nat.mod_lt _ (by norm_num))
    simp only [Nat.toDigitsCore] at hc
    split at hc
    · rcases List.mem_cons.mp hc with h | h
      · rw [h]; exact hd
      · exact hds c h
    · refine ih _ _ ?_ c hc
      intro c2 hc2
      rcases List.mem_cons.mp hc2 with h | h
      · rw [h]; exact hd
      · exact hds c2 h

theorem natRepr_mem_decimal (n : Nat) : ∀ c ∈ (Nat.repr n).data, c ∈ decimalChars := by
  intro c hc
  have h : (Nat.repr n).data = Nat.toDigitsCore 10 (n + 1) n [] := rfl
  rw [h] at hc
  exact toDigitsCore_mem_decimal (n + 1) n [] (by intro c2 hc2; cases hc2) c hc

theorem intToString_mem_decimal (i : Int) : ∀ c ∈ (toString i).data, c ∈ decimalChars := by
  rcases i with m | m
  · intro c hc
    have h : (toString (Int.ofNat m)).data = (Nat.repr m).data := rfl
    rw [h] at hc
    exact natRepr_mem_decimal m c hc
  · intro c hc
    have h : (toString (Int.negSucc m)).data = '-' :: (Nat.repr (m + 1)).data := rfl
    rw [h] at hc
    rcases List.mem_cons.mp hc with h2 | h2
    · rw [h2]; decide
    · exact natRepr_mem_decimal (m + 1) c h2

theorem escAllChars_of_not_mem (cs : List Char) (h : '"' ∉ cs) : escAllChars cs = cs := by
  induction cs with
  | nil => rfl
  | cons c rest ih =>
    have hc : ¬ (c = '"') := by intro h2; subst h2; exact h (List.mem_cons_self _ _)
    have hrest : '"' ∉ rest := fun hm => h (List.mem_cons_of_mem c hm)
    simp [escAllChars, hc, ih hrest]

theorem mem_of_mem_escAllChars {c : Char} {cs : List Char}
    (h : c ∈ escAllChars cs) : c ∈ cs ∨ c = '"' := by
  induction cs with
  | nil => simp [escAllChars] at h
  | cons c2 rest ih =>
    simp only [escAllChars] at h
    by_cases h2 : c2 = '"'
    · rw [if_pos h2] at h
      rcases List.mem_append.mp h with h3 | h3
      · right
        rcases List.mem_cons.mp h3 with h4 | h4
        · exact h4
        · exact List.mem_singleton.mp h4
      · rcases ih h3 with h4 | h4
        · exact Or.inl (List.mem_cons_of_mem _ h4)
        · exact Or.inr h4
    · rw [if_neg h2] at h
      rcases List.mem_append.mp h with h3 | h3
      · exact Or.inl (by rw [List.mem_singleton.mp h3]; exact List.mem_cons_self _ _)
      · rcases ih h3 with h4 | h4
        · exact Or.inl (List.mem_cons_of_mem _ h4)
        · exact Or.inr h4

theorem splitLinesCh_no_nl (a : List Char) (h : '\n' ∉ a) : splitLinesCh a = [a] := by
  induction a with
  | nil => rfl
  | cons c rest ih =>
    have hc : ¬ (c = '\n') := by intro h2; subst h2; exact h (List.mem_cons_self _ _)
    have hrest : '\n' ∉ rest := fun hm => h (List.mem_cons_of_mem c hm)
    simp only [splitLinesCh, if_neg hc, ih hrest]

theorem splitLinesCh_append (a b : List Char) (h : '\n' ∉ a) :
    splitLinesCh (a ++ '\n' :: b) = a :: splitLinesCh b := by
  induction a with
  | nil => simp [splitLinesCh]
  | cons c rest ih =>
    have hc : ¬ (c = '\n') := by intro h2; subst h2; exact h (List.mem_cons_self _ _)
    have hrest : '\n' ∉ rest := fun hm => h (List.mem_cons_of_mem c hm)
    simp only [List.cons_append, splitLinesCh, if_neg hc, List.append_eq, ih hrest]

theorem splitLinesCh_joinRows (rows : List String) (hne : rows ≠ [])
    (h : ∀ s ∈ rows, '\n' ∉ s.data) :
    splitLinesCh (joinRows rows).data = rows.map String.data := by
  induction rows with
  | nil => exact absurd rfl hne
  | cons r rest ih =>
    rcases rest with - | ⟨r2, rest2⟩
    · show splitLinesCh (joinRows [r]).data = [r.data]
      have hj : joinRows [r] = r := rfl
      rw [hj]
      exact splitLinesCh_no_nl r.data (h r (List.mem_cons_self _ _))
    · have hj : joinRows (r :: r2 :: rest2) = r ++ "\n" ++ joinRows (r2 :: rest2) := rfl
      have hdata : (r ++ "\n" ++ joinRows (r2 :: rest2)).data
          = r.data ++ '\n' :: (joinRows (r2 :: rest2)).data := by
        simp [String.data_append]
      rw [hj, hdata, splitLinesCh_append _ _ (h r (List.mem_cons_self _ _))]
      rw [ih (by simp) (fun s hs => h s (List.mem_cons_of_mem r hs))]
      simp

theorem csvFields_dq (rest cur : List Char) :
    csvFields ('"' :: '"' :: rest) true cur = csvFields rest true (cur ++ ['"']) := rfl

theorem csvFields_comma (rest cur : List Char) :
    csvFields (',' :: rest) false cur = String.mk cur :: csvFields rest false [] := rfl

theorem csvFields_openq (rest cur : List Char) :
    csvFields ('"' :: rest) false cur = csvFields rest true cur :=
  csvFields.eq_6 cur rest

theorem csvFields_nil (cur : List Char) : csvFields [] false cur = [String.mk cur] := rfl

theorem csvFields_close (rest cur : List Char)
    (h : ∀ rest2, rest ≠ '"' :: rest2) :
    csvFields ('"' :: rest) true cur = csvFields rest false cur :=
  csvFields.eq_3 cur rest (fun rest2 hr => h rest2 hr)

theorem csvFields_inq_step (c : Char) (rest cur : List Char) (h : ¬ (c = '"')) :
    csvFields (c :: rest) true cur = csvFields rest true (cur ++ [c]) :=
  csvFields.eq_4 cur c rest (fun _ hc _ => h hc) h

theorem csvFields_escaped_mid (s : List Char) : ∀ cur rest : List Char,
    csvFields (escAllChars s ++ '"' :: ',' :: rest) true cur
      = String.mk (cur ++ s) :: csvFields rest false [] := by
  induction s with
  | nil =>
    intro cur rest
    show csvFields ('"' :: ',' :: rest) true cur = _
    rw [csvFields_close (',' :: rest) cur (by intro rest2 hcon; simp at hcon)]
    rw [csvFields_comma]
    simp
  | cons c s2 ih =>
    intro cur rest
    by_cases hc : c = '"'
    · subst hc
      have he : escAllChars ('"' :: s2) = '"' :: '"' :: escAllChars s2 := by
        simp [escAllChars]
      rw [he, List.cons_append, List.cons_append, csvFields_dq, ih (cur ++ ['"']) rest]
      simp
    · have he : escAllChars (c :: s2) = c :: escAllChars s2 := by
        simp [escAllChars, hc]
      rw [he, List.cons_append, csvFields_inq_step c _ cur hc, ih (cur ++ [c]) rest]
      simp

theorem csvFields_escaped_end (s : List Char) : ∀ cur : List Char,
    csvFields (escAllChars s ++ ['"']) true cur = [String.mk (cur ++ s)] := by
  induction s with
  | nil =>
    intro cur
    show csvFields ['"'] true cur = _
    rw [csvFields_close [] cur (by intro rest2 hcon; simp at hcon)]
    simp [csvFields]
  | cons c s2 ih =>
    intro cur
    by_cases hc : c = '"'
    · subst hc
      have he : escAllChars ('"' :: s2) = '"' :: '"' :: escAllChars s2 := by
        simp [escAllChars]
      rw [he, List.cons_append, List.cons_append, csvFields_dq, ih (cur ++ ['"'])]
      simp
    · have he : escAllChars (c :: s2) = c :: escAllChars s2 := by
        simp [escAllChars, hc]
      rw [he, List.cons_append, csvFields_inq_step c _ cur hc, ih (cur ++ [c])]
      simp

theorem rowOf_data (r : Result) :
    (rowOf r).data
      = '"' :: (escAllChars r.prompt.data ++ '"' :: ',' :: ('"' ::
          (escAllChars (jsToString (.boolean r.mentioned)).data ++ '"' :: ',' ::
            (escapeCSV (csvOfPos r.position)).data))) := by
  have hq : ("\"" : String).data = ['"'] := rfl
  have hcm : ("," : String).data = [','] := rfl
  have heq : ∀ s : String, (escapeQuotes s).data = escAllChars s.data := fun _ => rfl
  simp [rowOf, escapeCSV_str, escapeCSV_boolean, String.data_append, hq, hcm, heq]

theorem parseLine_rowOf (r : Result) :
    parseLine (rowOf r).data
      = [r.prompt, if r.mentioned then "true" else "false", posField r.position] := by
  rw [parseLine, rowOf_data, csvFields_openq, csvFields_escaped_mid r.prompt.data]
  rw [csvFields_openq, csvFields_escaped_mid (jsToString (.boolean r.mentioned)).data]
  have hp : String.mk ([] ++ r.prompt.data) = r.prompt := rfl
  have hb : String.mk ([] ++ (jsToString (.boolean r.mentioned)).data)
      = if r.mentioned then "true" else "false" := by
    cases r.mentioned <;> rfl
  rw [hp, hb]
  rcases hpos : r.position with - | n
  · show _ :: _ :: csvFields (escapeCSV .jsNull).data false [] = _
    rw [escapeCSV_jsNull]
    show _ :: _ :: [String.mk []] = _
    simp [posField]
  · show _ :: _ :: csvFields (escapeCSV (.num n)).data false [] = _
    have hd : (escapeCSV (.num n)).data = '"' :: (escAllChars (toString n).data ++ ['"']) := by
      have heq : ∀ s : String, (escapeQuotes s).data = escAllChars s.data := fun _ => rfl
      simp [escapeCSV_num, String.data_append, heq]
    rw [hd, csvFields_openq, csvFields_escaped_end (toString n).data]
    have hn : String.mk ([] ++ (toString n).data) = toString n := rfl
    rw [hn]
    simp [posField]

theorem rowOf_no_nl (r : Result) (hp : '\n' ∉ r.prompt.data) :
    '\n' ∉ (rowOf r).data := by
  rw [rowOf_data]
  intro hmem
  rcases List.mem_cons.mp hmem with h | h
  · exact absurd h (by decide)
  rcases List.mem_append.mp h with h | h
  · rcases mem_of_mem_escAllChars h with h2 | h2
    · exact hp h2
    · exact absurd h2 (by decide)
  rcases List.mem_cons.mp h with h | h
  · exact absurd h (by decide)
  rcases List.mem_cons.mp h with h | h
  · exact absurd h (by decide)
  rcases List.mem_cons.mp h with h | h
  · exact absurd h (by decide)
  rcases List.mem_append.mp h with h | h
  · rcases mem_of_mem_escAllChars h with h2 | h2
    · revert h2; cases r.mentioned <;> decide
    · exact absurd h2 (by decide)
  rcases List.mem_cons.mp h with h | h
  · exact absurd h (by decide)
  rcases List.mem_cons.mp h with h | h
  · exact absurd h (by decide)
  rcases hpos : r.position with - | n
  · rw [hpos] at h
    exact absurd h (by decide)
  · rw [hpos] at h
    rw [show csvOfPos (some n) = CSVValue.num n from rfl] at h
    have hd : (escapeCSV (.num n)).data = '"' :: (escAllChars (toString n).data ++ ['"']) := by
      have heq : ∀ s : String, (escapeQuotes s).data = escAllChars s.data := fun _ => rfl
      simp [escapeCSV_num, String.data_append, heq]
    rw [hd] at h
    rcases List.mem_cons.mp h with h2 | h2
    · exact absurd h2 (by decide)
    rcases List.mem_append.mp h2 with h3 | h3
    · rcases mem_of_mem_escAllChars h3 with h4 | h4
      · have := intToString_mem_decimal n _ h4
        exact absurd this (by decide)
      · exact absurd h4 (by decide)
    · exact absurd h3 (by decide)

theorem toCSV_data (rs : List Result) :
    (toCSV rs).data
      = "prompt,mentioned,position".data ++ '\n' :: (joinRows (rs.map rowOf)).data := by
  have hh : csvHeader = "prompt,mentioned,position" ++ "\n" := rfl
  simp [toCSV, hh, String.data_append]

/-- Claim C3 counterexample: `escapeCSV` maps `null` to the empty string
(zero characters), not to an empty quoted field of two double-quote
characters; so not every field of every row is enclosed in quotes. -/
theorem C3_counterexample :
    escapeCSV .jsNull = "" ∧ escapeCSV .jsNull ≠ "\"\"" := by
  decide

/-- Claim C3 (corrected): a `null` or `undefined` value serializes to the
completely empty field (no characters, no quotes), while every value of
any other type is stringified with its quotes doubled and enclosed in
double quotes. -/
theorem C3_null_and_quoting :
    escapeCSV .jsNull = "" ∧ escapeCSV .undef = "" ∧
    ∀ v : CSVValue, v ≠ .jsNull → v ≠ .undef →
      escapeCSV v = "\"" ++ escapeQuotes (jsToString v) ++ "\"" := by
  refine ⟨rfl, rfl, ?_⟩
  intro v h1 h2
  rw [escapeCSV, if_neg]
  intro h3
  rcases h3 with h3 | h3
  · exact h1 h3
  · exact h2 h3

/-- Witness for C3 (corrected) at the string value `x`. -/
theorem C3_null_and_quoting_witness :
    escapeCSV (.str "x") = "\"" ++ escapeQuotes (jsToString (.str "x")) ++ "\"" :=
  C3_null_and_quoting.2.2 (.str "x") (by decide) (by decide)

/-- Claim C9 (confirmed): the prompt `He said "hi"` serializes exactly as
`"He said ""hi"""` — embedded double quotes doubled, field wrapped in
quotes. -/
theorem C9_quote_doubling :
    escapeCSV (.str "He said \"hi\"") = "\"He said \"\"hi\"\"\"" := by
  decide

/-- Claim C7 counterexample: a ledger with one record whose prompt embeds
a newline exports to three lines, not N + 1 = 2 — splitting the export on
newlines no longer recovers the records line by line. -/
theorem C7_counterexample :
    (splitLinesCh (toCSV [⟨"a\nb", false, none, none⟩]).data).length
      ≠ [(⟨"a\nb", false, none, none⟩ : Result)].length + 1 := by
  decide

/-- Claim C7 (corrected): for every non-empty ledger whose prompts contain
no newline character, the export consists of `N + 1` newline-separated
lines — the header `prompt,mentioned,position` followed by one row per
record in ledger order — and re-parsing by lines and by commas, respecting
quoted-field escaping, recovers each record's prompt, its mentioned flag
as `"true"`/`"false"`, and its position (or the empty string for null), in
order. -/
theorem C7_roundtrip (rs : List Result) (hne : rs ≠ [])
    (hnl : ∀ r ∈ rs, '\n' ∉ r.prompt.data) :
    (splitLinesCh (toCSV rs).data).length = rs.length + 1 ∧
    parseCSVText (toCSV rs)
      = ["prompt", "mentioned", "position"] ::
          rs.map (fun r =>
            [r.prompt, if r.mentioned then "true" else "false", posField r.position]) := by
  have hrows : ∀ s ∈ rs.map rowOf, '\n' ∉ s.data := by
    intro s hs
    obtain ⟨r, hr, rfl⟩ := List.mem_map.mp hs
    exact rowOf_no_nl r (hnl r hr)
  have hmapne : rs.map rowOf ≠ [] := by simpa using hne
  have hsplit : splitLinesCh (toCSV rs).data
      = "prompt,mentioned,position".data :: (rs.map rowOf).map String.data := by
    rw [toCSV_data, splitLinesCh_append _ _ (by decide)]
    rw [splitLinesCh_joinRows _ hmapne hrows]
  constructor
  · rw [hsplit]; simp
  · rw [parseCSVText, hsplit]
    simp only [List.map_cons, List.map_map]
    have hhdr : parseLine "prompt,mentioned,position".data
        = ["prompt", "mentioned", "position"] := by decide
    rw [hhdr]
    simp [Function.comp, parseLine_rowOf]

/-- Witness for C7 (corrected): the two-record ledger from the spec's
scenarios, one mentioned at position 3, one failed check with null
position. -/
theorem C7_roundtrip_witness :
    (splitLinesCh (toCSV [⟨"Best running shoes?", true, some 3, none⟩,
        ⟨"p", false, none, some "rate limited"⟩]).data).length
      = [(⟨"Best running shoes?", true, some 3, none⟩ : Result),
          ⟨"p", false, none, some "rate limited"⟩].length + 1 ∧
    parseCSVText (toCSV [⟨"Best running shoes?", true, some 3, none⟩,
        ⟨"p", false, none, some "rate limited"⟩])
      = ["prompt", "mentioned", "position"] ::
          [(⟨"Best running shoes?", true, some 3, none⟩ : Result),
            ⟨"p", false, none, some "rate limited"⟩].map (fun r =>
              [r.prompt, if r.mentioned then "true" else "false", posField r.position]) :=
  C7_roundtrip [⟨"Best running shoes?", true, some 3, none⟩,
    ⟨"p", false, none, some "rate limited"⟩] (by decide) (by decide)

end GeminiBrand
